import Mathlib

/-!
Verification of the pelcodrs Pelco D protocol library.

This file shallowly embeds the message-construction and response-validation
logic of the crate (src/message.rs, src/response.rs, src/error.rs) into Lean
and proves the specified properties about it.

Modelling conventions:
* Rust `u8` is `Fin 256`, `u16` is `Fin 65536`; arithmetic that the Rust code
  performs in wider integers is modelled on `Nat` with the masks/mods the code
  applies (`& 0xff` stays a bitwise and, the `u32` accumulator is a mod 2^32).
* Rust `Result<T>` is `Except Error T`; the `?` operator becomes an explicit
  match on the validation result.
* Rust `f32` is modelled by the inductive `F32`: NaN, the two infinities, or a
  finite value carried as an exact rational.  Multiplication of finite values
  rounds its exact product to the nearest value with a 24-bit significand
  (ties to even) via `f32round`, which is IEEE binary32 round-to-nearest-even
  on the whole normal range; gradual underflow and overflow of the product are
  not modelled, which is irrelevant here because the only multiplication the
  code performs is of a clamped fraction in [0, 1] by 63.0, whose result lies
  in [0, 63].  The remaining finite-value operations stay exact because the
  code only subtracts the constants 1.0 - 0.0, divides by the exact constant
  1.0 and adds the exact constant 0.0, all of which are exact in IEEE
  arithmetic for the values arising here.
* `&mut self`-chained builder methods become pure functions returning the
  updated builder.
-/

namespace Pelcodrs

/-- Rust `u8`. -/
abbrev U8 := Fin 256

/-- Rust `u16`. -/
abbrev U16 := Fin 65536

/-- Bitwise or of two bytes (`u8 | u8` / bitflags `|`). -/
def u8or (a b : U8) : U8 :=
  ⟨(a.val ||| b.val) % 256, Nat.mod_lt _ (by norm_num)⟩

/-- Error kinds of the crate (src/error.rs `ErrorKind`); the payload of the
Io variant is irrelevant here and dropped. -/
inductive ErrorKind where
  | invalidValue : ErrorKind
  | io : ErrorKind
deriving DecidableEq, Repr

/-- Crate error type (src/error.rs `Error`): a kind plus a description string.
`response.rs` writes its invalid-value error as `Error::InvalidValue(msg)`;
both forms are represented here as kind `invalidValue` plus the message. -/
structure Error where
  kind : ErrorKind
  description : String
deriving DecidableEq, Repr

/-- `arg_error` from src/message.rs: an InvalidValue error with a description. -/
def arg_error (description : String) : Error :=
  ⟨ErrorKind.invalidValue, description⟩

/-- Checksum algorithm used by Pelco D (src/message.rs `checksum`): sum of the
bytes in a u32 accumulator, then the low 8 bits (`(s & 0xff) as u8`). -/
def checksum (data : List U8) : U8 :=
  ⟨((data.map Fin.val).sum % 2 ^ 32) &&& 0xff,
   Nat.lt_of_le_of_lt Nat.and_le_right (by norm_num)⟩

/-- Bitflag type `Command1` (src/message.rs): a u8 of command-1 bits. -/
structure Command1 where
  bits : U8
deriving DecidableEq, Repr

instance : OrOp Command1 :=
  ⟨fun a b => ⟨u8or a.bits b.bits⟩⟩

def Command1.SENSE : Command1 := ⟨0x80⟩

def Command1.AUTO_MANUAL_SCAN : Command1 := ⟨0x10⟩

def Command1.CAMERA_ON_OFF : Command1 := ⟨0x08⟩

def Command1.IRIS_CLOSE : Command1 := ⟨0x04⟩

def Command1.IRIS_OPEN : Command1 := ⟨0x02⟩

def Command1.FOCUS_NEAR : Command1 := ⟨0x01⟩

/-- bitflags `Command1::empty()`. -/
def Command1.empty : Command1 := ⟨0⟩

/-- Bitflag type `Command2` (src/message.rs): a u8 of command-2 bits. -/
structure Command2 where
  bits : U8
deriving DecidableEq, Repr

instance : OrOp Command2 :=
  ⟨fun a b => ⟨u8or a.bits b.bits⟩⟩

def Command2.FOCUS_FAR : Command2 := ⟨0x80⟩

def Command2.ZOOM_WIDE : Command2 := ⟨0x40⟩

def Command2.ZOOM_TELE : Command2 := ⟨0x20⟩

def Command2.DOWN : Command2 := ⟨0x10⟩

def Command2.UP : Command2 := ⟨0x08⟩

def Command2.LEFT : Command2 := ⟨0x04⟩

def Command2.RIGHT : Command2 := ⟨0x02⟩

/-- bitflags `Command2::empty()`. -/
def Command2.empty : Command2 := ⟨0⟩

/-- Union of all declared `Command2` bits (bitflags `Command2::all()`). -/
def Command2.allBits : U8 := 0xFE

/-- bitflags `Command2::from_bits`: `some` iff no bit outside the declared
flags is set. -/
def Command2.from_bits (bits : U8) : Option Command2 :=
  if bits.val &&& Command2.allBits.val = bits.val then some ⟨bits⟩ else none

/-- Bitflag type `Direction` (src/message.rs).  The bits are pre-located to
the command position; the public bitflags API only produces combinations of
the four declared bits, which the `valid` field records. -/
structure Direction where
  bits : U8
  valid : bits.val &&& 0x1E = bits.val

def Direction.DOWN : Direction := ⟨0x10, by decide⟩

def Direction.UP : Direction := ⟨0x08, by decide⟩

def Direction.LEFT : Direction := ⟨0x04, by decide⟩

def Direction.RIGHT : Direction := ⟨0x02, by decide⟩

/-- `SYNC_BYTE` constant. -/
def SYNC_BYTE : U8 := 0xFF

/-- `SPEED_TURBO_BYTE` constant. -/
def SPEED_TURBO_BYTE : U8 := 0xFF

/-- Single command message (src/message.rs `Message([u8; 7])`), with the seven
bytes as fields `b0` (sync) through `b6` (checksum). -/
structure Message where
  b0 : U8
  b1 : U8
  b2 : U8
  b3 : U8
  b4 : U8
  b5 : U8
  b6 : U8
deriving DecidableEq, Repr

/-- `impl AsRef<[u8]> for Message`: the seven bytes as a list. -/
def Message.as_ref (m : Message) : List U8 :=
  [m.b0, m.b1, m.b2, m.b3, m.b4, m.b5, m.b6]

/-- `Message::fill_checksum`: overwrite the last byte with
`checksum(&self.0[1..MESSAGE_SIZE])` (bytes 1 through 6 of the current
contents; byte 6 is zero at every call site). -/
def Message.fill_checksum (m : Message) : Message :=
  { m with b6 := checksum [m.b1, m.b2, m.b3, m.b4, m.b5, m.b6] }

/-- `Message::new`: assemble `[SYNC_BYTE, address, cmd1.bits, cmd2.bits,
data1, data2, 0]` then fill the checksum. -/
def Message.new (address : U8) (cmd1 : Command1) (cmd2 : Command2)
    (data1 data2 : U8) : Message :=
  Message.fill_checksum ⟨SYNC_BYTE, address, cmd1.bits, cmd2.bits, data1, data2, 0⟩

/-- `Message::from_bytes`: insert the four raw words, then fill sync byte and
checksum. -/
def Message.from_bytes (address : U8) (words : Fin 4 → U8) : Message :=
  Message.fill_checksum
    ⟨SYNC_BYTE, address, words 0, words 1, words 2, words 3, 0⟩

/-- `impl From<[u8; MESSAGE_SIZE]> for Message`: wrap the seven bytes
verbatim. -/
def Message.from_arr (array : Fin 7 → U8) : Message :=
  ⟨array 0, array 1, array 2, array 3, array 4, array 5, array 6⟩

/-- `impl TryFrom<&[u8]> for Message`: succeeds exactly on length-7 slices,
copying the bytes verbatim. -/
def Message.try_from (value : List U8) : Except String Message :=
  match value with
  | [a0, a1, a2, a3, a4, a5, a6] => Except.ok ⟨a0, a1, a2, a3, a4, a5, a6⟩
  | _ => Except.error "The slice must contain exactly 7 bytes"

/-- `validate_preset_id`: ok iff the id is not zero. -/
def validate_preset_id (idx : U8) : Except Error Unit :=
  if idx ≠ 0x00 then Except.ok () else Except.error (arg_error "Invalid Present ID")

/-- Argument type for Zoom Speed, with its `as u8` discriminant value. -/
inductive ZoomSpeed where
  | Slow : ZoomSpeed
  | Medium : ZoomSpeed
  | High : ZoomSpeed
  | Highest : ZoomSpeed
deriving DecidableEq, Repr

/-- Rust `speed as u8` for `ZoomSpeed`. -/
def ZoomSpeed.toByte : ZoomSpeed → U8
  | .Slow => 0
  | .Medium => 1
  | .High => 2
  | .Highest => 3

/-- Argument type for Focus Speed, with its `as u8` discriminant value. -/
inductive FocusSpeed where
  | Slow : FocusSpeed
  | Medium : FocusSpeed
  | High : FocusSpeed
  | Highest : FocusSpeed
deriving DecidableEq, Repr

/-- Rust `speed as u8` for `FocusSpeed`. -/
def FocusSpeed.toByte : FocusSpeed → U8
  | .Slow => 0
  | .Medium => 1
  | .High => 2
  | .Highest => 3

/-- Argument type for Auto/On/Off. -/
inductive AutoCtrl where
  | Auto : AutoCtrl
  | Off : AutoCtrl
deriving DecidableEq, Repr

/-- Rust `ctrl as u8` for `AutoCtrl`. -/
def AutoCtrl.toByte : AutoCtrl → U8
  | .Auto => 0
  | .Off => 1

/-- On/Off argument type. -/
inductive OnOff where
  | On : OnOff
  | Off : OnOff
  | Value : U8 → OnOff
deriving DecidableEq, Repr

/-- Argument type for shutter speed. -/
inductive ShutterSpeed where
  | Bytes : U8 → U8 → ShutterSpeed
  | DefaultValue : ShutterSpeed
  | Increment : ShutterSpeed
  | Decrement : ShutterSpeed
  | PAL : ShutterSpeed
  | NTSC : ShutterSpeed
  | Value : U16 → ShutterSpeed
  | AutoShutter : ShutterSpeed
  | Index : U8 → ShutterSpeed
deriving DecidableEq, Repr

/-- Argument type for value adjustment functions; Delta carries the i16 as a
mathematical integer. -/
inductive AdjustmentValue where
  | New : U16 → AdjustmentValue
  | Delta : ℤ → AdjustmentValue
deriving DecidableEq, Repr

/-- Rust `u16::to_be_bytes`. -/
def u16_to_be_bytes (v : U16) : U8 × U8 :=
  (⟨v.val / 256, by omega⟩, ⟨v.val % 256, Nat.mod_lt _ (by norm_num)⟩)

/-- Rust `i16::to_be_bytes`: the two bytes of the value's two's complement. -/
def i16_to_be_bytes (v : ℤ) : U8 × U8 :=
  u16_to_be_bytes ⟨(v % 65536).toNat, by omega⟩

/-- `Message::set_preset`: validate the preset id, then
`from_bytes(address, [0x00, 0x03, 0x00, preset_id])`. -/
def Message.set_preset (address preset_id : U8) : Except Error Message :=
  match validate_preset_id preset_id with
  | .ok _ => .ok (Message.from_bytes address ![0x00, 0x03, 0x00, preset_id])
  | .error e => .error e

/-- `Message::clear_preset`. -/
def Message.clear_preset (address preset_id : U8) : Except Error Message :=
  match validate_preset_id preset_id with
  | .ok _ => .ok (Message.from_bytes address ![0x00, 0x05, 0x00, preset_id])
  | .error e => .error e

/-- `Message::go_to_preset`. -/
def Message.go_to_preset (address preset_id : U8) : Except Error Message :=
  match validate_preset_id preset_id with
  | .ok _ => .ok (Message.from_bytes address ![0x00, 0x07, 0x00, preset_id])
  | .error e => .error e

/-- `Message::flip_180`. -/
def Message.flip_180 (address : U8) : Except Error Message :=
  .ok (Message.from_bytes address ![0x00, 0x07, 0x00, 0x21])

/-- `Message::go_to_zero_pan`. -/
def Message.go_to_zero_pan (address : U8) : Except Error Message :=
  .ok (Message.from_bytes address ![0x00, 0x07, 0x00, 0x22])

/-- `Message::set_auxiliary`. -/
def Message.set_auxiliary (address sub_opcode aux_id : U8) : Except Error Message :=
  .ok (Message.from_bytes address ![sub_opcode, 0x09, 0x00, aux_id])

/-- `Message::clear_auxiliary`. -/
def Message.clear_auxiliary (address sub_opcode aux_id : U8) : Except Error Message :=
  .ok (Message.from_bytes address ![sub_opcode, 0x0B, 0x00, aux_id])

/-- `Message::remote_reset`. -/
def Message.remote_reset (address : U8) : Except Error Message :=
  .ok (Message.from_bytes address ![0x00, 0x0F, 0x00, 0x00])

/-- `Message::set_zone_start`. -/
def Message.set_zone_start (address zone_id : U8) : Except Error Message :=
  .ok (Message.from_bytes address ![0x00, 0x11, 0x00, zone_id])

/-- `Message::set_zone_end`. -/
def Message.set_zone_end (address zone_id : U8) : Except Error Message :=
  .ok (Message.from_bytes address ![0x00, 0x13, 0x00, zone_id])

/-- `Message::write_char_to_screen`: rejects non-ASCII characters, otherwise
uses the character's code point as the data byte. -/
def Message.write_char_to_screen (address column : U8) (character : Char) :
    Except Error Message :=
  if character.toNat < 128 then
    .ok (Message.from_bytes address
      ![0x00, 0x15, column, ⟨character.toNat % 256, Nat.mod_lt _ (by norm_num)⟩])
  else
    .error (arg_error "Invalid ASCII character")

/-- `Message::clear_screen`. -/
def Message.clear_screen (address : U8) : Except Error Message :=
  .ok (Message.from_bytes address ![0x00, 0x17, 0x00, 0x00])

/-- `Message::alarm_acknowledge`. -/
def Message.alarm_acknowledge (address alarm_no : U8) : Except Error Message :=
  .ok (Message.from_bytes address ![0x00, 0x19, 0x00, alarm_no])

/-- `Message::zone_scan_on`. -/
def Message.zone_scan_on (address : U8) : Except Error Message :=
  .ok (Message.from_bytes address ![0x00, 0x1B, 0x00, 0x00])

/-- `Message::zone_scan_off`. -/
def Message.zone_scan_off (address : U8) : Except Error Message :=
  .ok (Message.from_bytes address ![0x00, 0x1D, 0x00, 0x00])

/-- `Message::set_pattern_start`. -/
def Message.set_pattern_start (address pattern_id : U8) : Except Error Message :=
  .ok (Message.from_bytes address ![0x00, 0x1F, 0x00, pattern_id])

/-- `Message::set_pattern_stop`. -/
def Message.set_pattern_stop (address pattern_id : U8) : Except Error Message :=
  .ok (Message.from_bytes address ![0x00, 0x21, 0x00, pattern_id])

/-- `Message::run_pattern`. -/
def Message.run_pattern (address pattern_id : U8) : Except Error Message :=
  .ok (Message.from_bytes address ![0x00, 0x23, 0x00, pattern_id])

/-- `Message::set_zoom_speed`. -/
def Message.set_zoom_speed (address : U8) (speed : ZoomSpeed) : Except Error Message :=
  .ok (Message.from_bytes address ![0x00, 0x25, 0x00, speed.toByte])

/-- `Message::set_focus_speed`. -/
def Message.set_focus_speed (address : U8) (speed : FocusSpeed) : Except Error Message :=
  .ok (Message.from_bytes address ![0x00, 0x27, 0x00, speed.toByte])

/-- `Message::reset_camera_to_defaults`. -/
def Message.reset_camera_to_defaults (address : U8) : Except Error Message :=
  .ok (Message.from_bytes address ![0x00, 0x29, 0x00, 0x00])

/-- `Message::auto_focus`. -/
def Message.auto_focus (address : U8) (ctrl : AutoCtrl) : Except Error Message :=
  .ok (Message.from_bytes address ![0x00, 0x2B, 0x00, ctrl.toByte])

/-- `Message::auto_iris`. -/
def Message.auto_iris (address : U8) (cmd : AutoCtrl) : Except Error Message :=
  .ok (Message.from_bytes address ![0x00, 0x2D, 0x00, cmd.toByte])

/-- `Message::agc`. -/
def Message.agc (address : U8) (cmd : AutoCtrl) : Except Error Message :=
  .ok (Message.from_bytes address ![0x00, 0x2F, 0x00, cmd.toByte])

/-- `Message::backlight_compensation`: On maps to 2, Off to 1. -/
def Message.backlight_compensation (address : U8) (ctrl : OnOff) : Except Error Message :=
  let ctrl : U8 := match ctrl with
    | .On => 2
    | .Off => 1
    | .Value x => x
  .ok (Message.from_bytes address ![0x00, 0x31, 0x00, ctrl])

/-- `Message::auto_white_balance`: On maps to 1, Off to 2. -/
def Message.auto_white_balance (address : U8) (ctrl : OnOff) : Except Error Message :=
  let ctrl : U8 := match ctrl with
    | .On => 1
    | .Off => 2
    | .Value x => x
  .ok (Message.from_bytes address ![0x00, 0x33, 0x00, ctrl])

/-- `Message::enable_device_phase_delay_mode`. -/
def Message.enable_device_phase_delay_mode (address : U8) : Except Error Message :=
  .ok (Message.from_bytes address ![0x00, 0x35, 0x00, 0x00])

/-- `Message::set_shutter_speed`. -/
def Message.set_shutter_speed (address : U8) (ctrl : ShutterSpeed) : Except Error Message :=
  let data : U8 × U8 := match ctrl with
    | .Bytes d1 d2 => (d1, d2)
    | .DefaultValue => (0, 0)
    | .Increment => (0, 1)
    | .Decrement => (0, 2)
    | .PAL => (0, 50)
    | .NTSC => (0, 60)
    | .Value secs => u16_to_be_bytes secs
    | .AutoShutter => (0, 0)
    | .Index idx => (0, idx)
  .ok (Message.from_bytes address ![0x00, 0x37, data.1, data.2])

/-- `Message::adjust` (private helper of the adjustment constructors). -/
def Message.adjust (address opcode : U8) (ctrl : AdjustmentValue) : Except Error Message :=
  let cd : U8 × (U8 × U8) := match ctrl with
    | .New value => (0, u16_to_be_bytes value)
    | .Delta value => (1, i16_to_be_bytes value)
  .ok (Message.from_bytes address ![cd.1, opcode, cd.2.1, cd.2.2])

/-- `Message::adjust_line_lock_phase_delay`. -/
def Message.adjust_line_lock_phase_delay (address : U8) (ctrl : AdjustmentValue) :
    Except Error Message :=
  Message.adjust address 0x39 ctrl

/-- `Message::adjust_white_balance_rb`. -/
def Message.adjust_white_balance_rb (address : U8) (ctrl : AdjustmentValue) :
    Except Error Message :=
  Message.adjust address 0x3B ctrl

/-- `Message::adjust_white_balance_mg`. -/
def Message.adjust_white_balance_mg (address : U8) (ctrl : AdjustmentValue) :
    Except Error Message :=
  Message.adjust address 0x3D ctrl

/-- `Message::adjust_gain`. -/
def Message.adjust_gain (address : U8) (ctrl : AdjustmentValue) :
    Except Error Message :=
  Message.adjust address 0x3F ctrl

/-- `Message::adjust_auto_iris_level`. -/
def Message.adjust_auto_iris_level (address : U8) (ctrl : AdjustmentValue) :
    Except Error Message :=
  Message.adjust address 0x41 ctrl

/-- `Message::adjust_auto_iris_peak`. -/
def Message.adjust_auto_iris_peak (address : U8) (ctrl : AdjustmentValue) :
    Except Error Message :=
  Message.adjust address 0x43 ctrl

/-- `Message::query`. -/
def Message.query : Except Error Message :=
  .ok (Message.from_bytes 0 ![0x00, 0x45, 0x00, 0x00])

/-- Model of a Rust `f32` value: NaN, an infinity, or a finite value carried
as an exact rational (see the module docstring for the fidelity argument). -/
inductive F32 where
  | nan : F32
  | inf : F32
  | neginf : F32
  | num : ℚ → F32
deriving DecidableEq

/-- IEEE `>` comparison: false whenever NaN is involved. -/
def F32.gt : F32 → F32 → Bool
  | .nan, _ => false
  | _, .nan => false
  | .inf, .inf => false
  | .inf, _ => true
  | .neginf, _ => false
  | .num _, .inf => false
  | .num _, .neginf => true
  | .num a, .num b => decide (b < a)

/-- IEEE `<` comparison: false whenever NaN is involved. -/
def F32.lt (a b : F32) : Bool := F32.gt b a

/-- IEEE subtraction (finite case exact). -/
def F32.sub : F32 → F32 → F32
  | .nan, _ => .nan
  | _, .nan => .nan
  | .inf, .inf => .nan
  | .inf, _ => .inf
  | .neginf, .neginf => .nan
  | .neginf, _ => .neginf
  | .num _, .inf => .neginf
  | .num _, .neginf => .inf
  | .num a, .num b => .num (a - b)

/-- IEEE addition (finite case exact). -/
def F32.add : F32 → F32 → F32
  | .nan, _ => .nan
  | _, .nan => .nan
  | .inf, .neginf => .nan
  | .neginf, .inf => .nan
  | .inf, _ => .inf
  | _, .inf => .inf
  | .neginf, _ => .neginf
  | _, .neginf => .neginf
  | .num a, .num b => .num (a + b)

/-- Round to nearest integer, ties to even. -/
def rne (q : ℚ) : ℤ :=
  if q - ⌊q⌋ < 1 / 2 then ⌊q⌋
  else if 1 / 2 < q - ⌊q⌋ then ⌊q⌋ + 1
  else if ⌊q⌋ % 2 = 0 then ⌊q⌋ else ⌊q⌋ + 1

/-- IEEE binary32 round-to-nearest-even on the normal range: round the
significand of `q` to 24 bits (gradual underflow and overflow to infinity are
not modelled; see the module docstring for why that is irrelevant here). -/
def f32round (q : ℚ) : ℚ :=
  if q = 0 then 0
  else
    let e : ℤ := Int.log 2 |q|
    (if q < 0 then (-1 : ℚ) else 1) * (rne (|q| * 2 ^ (23 - e)) : ℚ) * 2 ^ (e - 23)

/-- IEEE multiplication: the product of finite values is rounded to the
nearest representable value by `f32round`; zero times infinity is NaN. -/
def F32.mul : F32 → F32 → F32
  | .nan, _ => .nan
  | _, .nan => .nan
  | .inf, .inf => .inf
  | .inf, .neginf => .neginf
  | .neginf, .inf => .neginf
  | .neginf, .neginf => .inf
  | .inf, .num b => if b = 0 then .nan else if 0 < b then .inf else .neginf
  | .num a, .inf => if a = 0 then .nan else if 0 < a then .inf else .neginf
  | .neginf, .num b => if b = 0 then .nan else if 0 < b then .neginf else .inf
  | .num a, .neginf => if a = 0 then .nan else if 0 < a then .neginf else .inf
  | .num a, .num b => .num (f32round (a * b))

/-- IEEE division (finite case with nonzero divisor exact; signed zeroes are
not distinguished).  Only division by the exact constant 1.0 occurs below. -/
def F32.div : F32 → F32 → F32
  | .nan, _ => .nan
  | _, .nan => .nan
  | .inf, .inf => .nan
  | .inf, .neginf => .nan
  | .neginf, .inf => .nan
  | .neginf, .neginf => .nan
  | .inf, .num b => if b < 0 then .neginf else .inf
  | .neginf, .num b => if b < 0 then .inf else .neginf
  | .num _, .inf => .num 0
  | .num _, .neginf => .num 0
  | .num a, .num b =>
      if b = 0 then (if a = 0 then .nan else if 0 < a then .inf else .neginf)
      else .num (a / b)

/-- Rust `f32::round`: round half away from zero, on the rational carried by a
finite value. -/
def roundAway (q : ℚ) : ℤ :=
  if 0 ≤ q then ⌊q + 1 / 2⌋ else ⌈q - 1 / 2⌉

/-- `F32` version of Rust `f32::round`. -/
def F32.round : F32 → F32
  | .nan => .nan
  | .inf => .inf
  | .neginf => .neginf
  | .num q => .num ((roundAway q : ℤ) : ℚ)

/-- Rust `as u8` cast from `f32`: saturating, NaN goes to 0, truncation toward
zero (the argument below is always non-negative, where truncation is floor). -/
def F32.toU8 : F32 → U8
  | .nan => 0
  | .inf => 255
  | .neginf => 0
  | .num q =>
      if q ≤ 0 then 0
      else if h : (255 : ℚ) ≤ q then 255
      else ⟨⌊q⌋.toNat, by
        have h2 : ⌊q⌋ < (255 : ℤ) := by
          rw [Int.floor_lt]
          push_cast
          linarith [lt_of_not_le h]
        omega⟩

/-- Speed parameter type for pan and tilt moves. -/
inductive Speed where
  | Range : F32 → Speed
  | Turbo : Speed
deriving DecidableEq

/-- `SPEED_MAX_RANGE` constant (1.0f32). -/
def SPEED_MAX_RANGE : F32 := .num 1

/-- `SPEED_MIN_RANGE` constant (0.0f32). -/
def SPEED_MIN_RANGE : F32 := .num 0

/-- `speed_to_byte` (src/message.rs): clamp a Range fraction into
[SPEED_MIN_RANGE, SPEED_MAX_RANGE] then compute
`(((range / (max - min)) + min) * 63.0).round() as u8`; Turbo is the fixed
sentinel byte. -/
def speed_to_byte : Speed → U8
  | .Range range =>
      let range :=
        if F32.gt range SPEED_MAX_RANGE then SPEED_MAX_RANGE
        else if F32.lt range SPEED_MIN_RANGE then SPEED_MIN_RANGE
        else range
      F32.toU8 (F32.round (F32.mul
        (F32.add (F32.div range (F32.sub SPEED_MAX_RANGE SPEED_MIN_RANGE))
          SPEED_MIN_RANGE)
        (.num 63)))
  | .Turbo => SPEED_TURBO_BYTE

/-- Builder of `Message` (standard) instances (src/message.rs
`MessageBuilder`). -/
structure MessageBuilder where
  address : U8
  cmd1 : Command1
  cmd2 : Command2
  data1 : U8
  data2 : U8
deriving DecidableEq, Repr

/-- `MessageBuilder::new`: empty command words and zero data bytes. -/
def MessageBuilder.new (address : U8) : MessageBuilder :=
  ⟨address, Command1.empty, Command2.empty, 0, 0⟩

/-- `MessageBuilder::direction`: or the direction bits into cmd2 (the
`Command2::from_bits(..).unwrap()` of the source never panics because every
`Direction` value only carries cmd2-positioned bits; `getD` stands for the
unwrap). -/
def MessageBuilder.direction (b : MessageBuilder) (direction : Direction) :
    MessageBuilder :=
  { b with cmd2 := b.cmd2 ||| (Command2.from_bits direction.bits).getD ⟨0⟩ }

/-- `MessageBuilder::down`. -/
def MessageBuilder.down (b : MessageBuilder) : MessageBuilder :=
  b.direction Direction.DOWN

/-- `MessageBuilder::up`. -/
def MessageBuilder.up (b : MessageBuilder) : MessageBuilder :=
  b.direction Direction.UP

/-- `MessageBuilder::left`. -/
def MessageBuilder.left (b : MessageBuilder) : MessageBuilder :=
  b.direction Direction.LEFT

/-- `MessageBuilder::right`. -/
def MessageBuilder.right (b : MessageBuilder) : MessageBuilder :=
  b.direction Direction.RIGHT

/-- `MessageBuilder::pan`: set data1 from the speed. -/
def MessageBuilder.pan (b : MessageBuilder) (speed : Speed) : MessageBuilder :=
  { b with data1 := speed_to_byte speed }

/-- `MessageBuilder::tilt`: set data2 from the speed. -/
def MessageBuilder.tilt (b : MessageBuilder) (speed : Speed) : MessageBuilder :=
  { b with data2 := speed_to_byte speed }

/-- `MessageBuilder::stop`: clear both command words and both data bytes. -/
def MessageBuilder.stop (b : MessageBuilder) : MessageBuilder :=
  { b with cmd1 := Command1.empty, cmd2 := Command2.empty, data1 := 0, data2 := 0 }

/-- `MessageBuilder::zoom_in`. -/
def MessageBuilder.zoom_in (b : MessageBuilder) : MessageBuilder :=
  { b with cmd2 := b.cmd2 ||| Command2.ZOOM_TELE }

/-- `MessageBuilder::zoom_out`. -/
def MessageBuilder.zoom_out (b : MessageBuilder) : MessageBuilder :=
  { b with cmd2 := b.cmd2 ||| Command2.ZOOM_WIDE }

/-- `MessageBuilder::camera_on`. -/
def MessageBuilder.camera_on (b : MessageBuilder) : MessageBuilder :=
  { b with cmd1 := b.cmd1 ||| (Command1.SENSE ||| Command1.CAMERA_ON_OFF) }

/-- `MessageBuilder::camera_off`. -/
def MessageBuilder.camera_off (b : MessageBuilder) : MessageBuilder :=
  { b with cmd1 := b.cmd1 ||| Command1.CAMERA_ON_OFF }

/-- `MessageBuilder::auto_scan`. -/
def MessageBuilder.auto_scan (b : MessageBuilder) : MessageBuilder :=
  { b with cmd1 := b.cmd1 ||| (Command1.SENSE ||| Command1.AUTO_MANUAL_SCAN) }

/-- `MessageBuilder::manual_scan`. -/
def MessageBuilder.manual_scan (b : MessageBuilder) : MessageBuilder :=
  { b with cmd1 := b.cmd1 ||| Command1.AUTO_MANUAL_SCAN }

/-- `MessageBuilder::close_iris`. -/
def MessageBuilder.close_iris (b : MessageBuilder) : MessageBuilder :=
  { b with cmd1 := b.cmd1 ||| Command1.IRIS_CLOSE }

/-- `MessageBuilder::open_iris`. -/
def MessageBuilder.open_iris (b : MessageBuilder) : MessageBuilder :=
  { b with cmd1 := b.cmd1 ||| Command1.IRIS_OPEN }

/-- `MessageBuilder::focus_far`. -/
def MessageBuilder.focus_far (b : MessageBuilder) : MessageBuilder :=
  { b with cmd2 := b.cmd2 ||| Command2.FOCUS_FAR }

/-- `MessageBuilder::focus_near`. -/
def MessageBuilder.focus_near (b : MessageBuilder) : MessageBuilder :=
  { b with cmd1 := b.cmd1 ||| Command1.FOCUS_NEAR }

/-- `impl From<MessageBuilder> for Message` followed by
`MessageBuilder::finalize`: always `Ok`, building via `Message::new` from the
current builder state. -/
def MessageBuilder.finalize (b : MessageBuilder) : Except Error Message :=
  .ok (Message.new b.address b.cmd1 b.cmd2 b.data1 b.data2)

/-- `RESPONSE_SIZE_NONE` constant (src/response.rs). -/
def RESPONSE_SIZE_NONE : ℕ := 0

/-- `RESPONSE_SIZE_GENERAL` constant. -/
def RESPONSE_SIZE_GENERAL : ℕ := 4

/-- `RESPONSE_SIZE_EXTENDED` constant. -/
def RESPONSE_SIZE_EXTENDED : ℕ := 7

/-- `RESPONSE_SIZE_QUERY` constant. -/
def RESPONSE_SIZE_QUERY : ℕ := 18

/-- `RESPONSE_SIZE_MAX` constant. -/
def RESPONSE_SIZE_MAX : ℕ := RESPONSE_SIZE_QUERY

/-- The types of response returned by the device (src/response.rs
`ResponseKind`). -/
inductive ResponseKind where
  | none : ResponseKind
  | general : ResponseKind
  | extended : ResponseKind
  | query : ResponseKind
deriving DecidableEq, Repr

/-- Byte length implied by a response kind. -/
def ResponseKind.size : ResponseKind → ℕ
  | .none => RESPONSE_SIZE_NONE
  | .general => RESPONSE_SIZE_GENERAL
  | .extended => RESPONSE_SIZE_EXTENDED
  | .query => RESPONSE_SIZE_QUERY

/-- Response message (src/response.rs `Response`): a kind plus the fixed
18-byte backing buffer, modelled as a list.  Every `Response` the public API
produces has `data.length = RESPONSE_SIZE_MAX` (the Rust field type is
`[u8; 18]`); theorems quantifying over arbitrary responses carry that length
as a hypothesis where they need it. -/
structure Response where
  kind : ResponseKind
  data : List U8
deriving DecidableEq, Repr

/-- `Response::kind`. -/
def Response.kindOf (r : Response) : ResponseKind := r.kind

/-- `Response::bytes`: the prefix of the buffer implied by the kind
(`&self.data[..n]`). -/
def Response.bytes (r : Response) : List U8 :=
  match r.kind with
  | .none => r.data.take RESPONSE_SIZE_NONE
  | .general => r.data.take RESPONSE_SIZE_GENERAL
  | .extended => r.data.take RESPONSE_SIZE_EXTENDED
  | .query => r.data.take RESPONSE_SIZE_QUERY

/-- `Response::checksum_is_valid`: kind-dependent checksum verification
against the originating command's checksum byte.  Indexing `self.data[i]`
becomes `getD i 0`, which never falls back to the default on a length-18
buffer; `&self.data[i..j]` becomes drop/take. -/
def Response.checksum_is_valid (r : Response) (cmd_cksm : U8) : Bool :=
  match r.kind with
  | .none => true
  | .general => checksum [cmd_cksm, r.data.getD 2 0] == r.data.getD 3 0
  | .extended => checksum ((r.data.drop 1).take 5) == r.data.getD 6 0
  | .query =>
      ((checksum ((r.data.drop 1).take 16)).val + cmd_cksm.val) &&& 0xFF
        == (r.data.getD 17 0).val

/-- `impl TryFrom<&[u8]> for Response`: classify by exact length, copying the
input over a zeroed 18-byte buffer; any other length is an invalid-value
error naming the observed length. -/
def Response.try_from (value : List U8) : Except Error Response :=
  if value.length = RESPONSE_SIZE_NONE then
    .ok ⟨.none, List.replicate RESPONSE_SIZE_MAX 0⟩
  else if value.length = RESPONSE_SIZE_GENERAL then
    .ok ⟨.general, value ++ List.replicate (RESPONSE_SIZE_MAX - RESPONSE_SIZE_GENERAL) 0⟩
  else if value.length = RESPONSE_SIZE_EXTENDED then
    .ok ⟨.extended, value ++ List.replicate (RESPONSE_SIZE_MAX - RESPONSE_SIZE_EXTENDED) 0⟩
  else if value.length = RESPONSE_SIZE_QUERY then
    .ok ⟨.query, value ++ List.replicate (RESPONSE_SIZE_MAX - RESPONSE_SIZE_QUERY) 0⟩
  else
    .error (arg_error ("Invalid response length " ++ toString value.length))

deriving instance DecidableEq for Except

/-- Checksum well-formedness of a message: the last byte is the checksum of
bytes 1 through 5 (equivalently, of bytes 1 through 6 as summed by
`fill_checksum`, whose 7th summand is zero at every call site). -/
def cksumOk (m : Message) : Prop :=
  m.b6 = checksum [m.b1, m.b2, m.b3, m.b4, m.b5]

instance (m : Message) : Decidable (cksumOk m) :=
  inferInstanceAs (Decidable (m.b6 = checksum [m.b1, m.b2, m.b3, m.b4, m.b5]))

/-- Predicate transformer for fallible constructors: the property holds of the
produced message whenever construction succeeds. -/
def exceptOk (P : Message → Prop) : Except Error Message → Prop
  | .ok m => P m
  | .error _ => True

/-- Idealized speed quantization exactly as the claim words it: clamp the
fraction to [0, 1], map linearly by `round(fraction * 63)` over the exact
rationals (round half away from zero, as `f32::round` does).  This ignores
the f32 rounding of the product and therefore differs from the program at
inputs whose exact product falls within an f32 half-ulp of a .5 boundary;
kept for the comparison theorems below. -/
def speed_to_byte_spec (fraction : ℚ) : U8 :=
  ⟨(roundAway (min 1 (max 0 fraction) * 63)).toNat % 256, Nat.mod_lt _ (by norm_num)⟩

/-- Reference speed quantization including the f32 rounding of the product:
clamp the fraction to [0, 1], multiply by 63 with the product rounded to the
nearest f32 (`f32round`), then round half away from zero. -/
def speed_to_byte_spec_f32 (fraction : ℚ) : U8 :=
  ⟨(roundAway (f32round (min 1 (max 0 fraction) * 63))).toNat % 256,
    Nat.mod_lt _ (by norm_num)⟩

/-- Reference checksum-validity predicate, written from the spec's words
(per-kind conditions, with the Query reduction written as mod 256). -/
def checksum_valid_spec (r : Response) (cmd_cksm : U8) : Prop :=
  match r.kind with
  | .none => True
  | .general => checksum [cmd_cksm, r.data.getD 2 0] = r.data.getD 3 0
  | .extended => checksum ((r.data.drop 1).take 5) = r.data.getD 6 0
  | .query =>
      ((checksum ((r.data.drop 1).take 16)).val + cmd_cksm.val) % 256
        = (r.data.getD 17 0).val

lemma checksum_val (data : List U8) :
    (checksum data).val = (data.map Fin.val).sum % 256 := by
  show ((data.map Fin.val).sum % 2 ^ 32) &&& 0xff = _
  rw [show (0xff : ℕ) = 2 ^ 8 - 1 by norm_num, Nat.and_pow_two_sub_one_eq_mod]
  exact Nat.mod_mod_of_dvd _ (by norm_num)

lemma checksum_append_zero (l : List U8) : checksum (l ++ [0]) = checksum l := by
  apply Fin.ext
  rw [checksum_val, checksum_val]
  simp

lemma new_cksumOk (a : U8) (c1 : Command1) (c2 : Command2) (d1 d2 : U8) :
    cksumOk (Message.new a c1 c2 d1 d2) := by
  show checksum [a, c1.bits, c2.bits, d1, d2, 0] = checksum [a, c1.bits, c2.bits, d1, d2]
  exact checksum_append_zero [a, c1.bits, c2.bits, d1, d2]

lemma from_bytes_cksumOk (a : U8) (w : Fin 4 → U8) :
    cksumOk (Message.from_bytes a w) := by
  show checksum [a, w 0, w 1, w 2, w 3, 0] = checksum [a, w 0, w 1, w 2, w 3]
  exact checksum_append_zero [a, w 0, w 1, w 2, w 3]

lemma roundAway_nonneg {q : ℚ} (h : 0 ≤ q) : 0 ≤ roundAway q := by
  unfold roundAway
  rw [if_pos h]
  exact Int.le_floor.mpr (by push_cast; linarith)

lemma roundAway_le63 {q : ℚ} (h0 : 0 ≤ q) (h : q ≤ 63) : roundAway q ≤ 63 := by
  unfold roundAway
  rw [if_pos h0]
  have hlt : ⌊q + 1 / 2⌋ < 64 := by
    rw [Int.floor_lt]
    push_cast
    linarith
  omega

lemma toU8_intCast (r : ℤ) (h0 : 0 ≤ r) (h : r ≤ 63) :
    F32.toU8 (F32.num (r : ℚ)) = ⟨r.toNat % 256, Nat.mod_lt _ (by norm_num)⟩ := by
  simp only [F32.toU8]
  rcases eq_or_lt_of_le h0 with h0 | h0
  · rw [if_pos (by exact_mod_cast h0.symm.le)]
    apply Fin.ext
    simp [← h0]
  · rw [if_neg (by rw [not_le]; exact_mod_cast h0),
      dif_neg (by rw [not_le]; exact_mod_cast (show r < (255 : ℤ) by omega))]
    apply Fin.ext
    simp only [Int.floor_intCast]
    omega

lemma rne_le (q : ℚ) : (rne q : ℚ) ≤ q + 1 / 2 := by
  have h1 := Int.floor_le q
  have h2 := Int.lt_floor_add_one q
  unfold rne
  split_ifs with ha hb hc <;> push_cast <;> linarith

lemma le_rne (q : ℚ) : q - 1 / 2 ≤ (rne q : ℚ) := by
  have h1 := Int.floor_le q
  have h2 := Int.lt_floor_add_one q
  unfold rne
  split_ifs with ha hb hc <;> push_cast <;> linarith

lemma rne_intCast (n : ℤ) : rne (n : ℚ) = n := by
  unfold rne
  norm_num

lemma rne_eval_lt (q : ℚ) (f : ℤ) (hf : ⌊q⌋ = f) (h : q - f < 1 / 2) : rne q = f := by
  unfold rne
  rw [hf, if_pos h]

lemma rne_eval_gt (q : ℚ) (f : ℤ) (hf : ⌊q⌋ = f) (h : 1 / 2 < q - f) :
    rne q = f + 1 := by
  unfold rne
  rw [hf, if_neg (by linarith), if_pos h]

lemma int_log2_eq (q : ℚ) (e : ℤ) (hq : 0 < q) (h1 : (2 : ℚ) ^ e ≤ q)
    (h2 : q < 2 ^ (e + 1)) : Int.log 2 q = e := by
  have hb : 1 < (2 : ℕ) := by norm_num
  have hle : e ≤ Int.log 2 q := by
    rw [← Int.zpow_le_iff_le_log hb hq]
    exact_mod_cast h1
  have hlt : Int.log 2 q < e + 1 := by
    rw [← Int.lt_zpow_iff_log_lt hb hq]
    exact_mod_cast h2
  omega

lemma f32round_zero : f32round 0 = 0 := by
  unfold f32round
  norm_num

lemma f32round_eq (q c : ℚ) (e m : ℤ) (hq : 0 < q) (h1 : (2 : ℚ) ^ e ≤ q)
    (h2 : q < 2 ^ (e + 1)) (hm : rne (q * 2 ^ (23 - e)) = m)
    (hc : (m : ℚ) * 2 ^ (e - 23) = c) : f32round q = c := by
  unfold f32round
  rw [if_neg hq.ne', if_neg (not_lt.mpr hq.le)]
  rw [abs_of_pos hq, int_log2_eq q e hq h1 h2]
  show (1 : ℚ) * (rne (q * 2 ^ (23 - e)) : ℚ) * 2 ^ (e - 23) = c
  rw [hm, one_mul, hc]

lemma f32round_eval (q c : ℚ) (e : ℕ) (m : ℤ) (hq : 0 < q) (he : e ≤ 23)
    (h1 : (2 : ℚ) ^ e ≤ q) (h2 : q < 2 ^ (e + 1))
    (hm : rne (q * 2 ^ (23 - e)) = m) (hc : (m : ℚ) = c * 2 ^ (23 - e)) :
    f32round q = c := by
  apply f32round_eq q c e m hq
  · rw [zpow_natCast]
    exact h1
  · rw [show (e : ℤ) + 1 = ((e + 1 : ℕ) : ℤ) by push_cast; ring, zpow_natCast]
    exact h2
  · rw [show (23 : ℤ) - e = ((23 - e : ℕ) : ℤ) by omega, zpow_natCast]
    exact hm
  · rw [show (e : ℤ) - 23 = -(((23 - e : ℕ) : ℤ)) by omega, zpow_neg, zpow_natCast]
    rw [hc]
    have hpow : (0 : ℚ) < 2 ^ (23 - e : ℕ) := by positivity
    field_simp

lemma f32round_nonneg {q : ℚ} (h : 0 ≤ q) : 0 ≤ f32round q := by
  rcases h.eq_or_lt with h0 | h0
  · rw [← h0, f32round_zero]
  · unfold f32round
    rw [if_neg h0.ne', if_neg (not_lt.mpr h0.le), abs_of_pos h0]
    show (0 : ℚ) ≤ 1 * (rne (q * 2 ^ (23 - Int.log 2 q)) : ℚ) * 2 ^ (Int.log 2 q - 23)
    have hxpos : 0 < q * 2 ^ (23 - Int.log 2 q) :=
      mul_pos h0 (zpow_pos (by norm_num) _)
    have hm := le_rne (q * 2 ^ (23 - Int.log 2 q))
    have hmz : (0 : ℤ) ≤ rne (q * 2 ^ (23 - Int.log 2 q)) := by
      by_contra hneg
      push_neg at hneg
      have hcast : (rne (q * 2 ^ (23 - Int.log 2 q)) : ℚ) ≤ -1 := by
        exact_mod_cast (by omega : rne (q * 2 ^ (23 - Int.log 2 q)) ≤ -1)
      linarith
    have hmq : (0 : ℚ) ≤ (rne (q * 2 ^ (23 - Int.log 2 q)) : ℚ) := by
      exact_mod_cast hmz
    have hp : (0 : ℚ) ≤ 2 ^ (Int.log 2 q - 23) := (zpow_pos (by norm_num) _).le
    nlinarith

lemma f32round_le63 {q : ℚ} (h0 : 0 ≤ q) (h : q ≤ 63) : f32round q ≤ 63 := by
  rcases h0.eq_or_lt with h0 | h0
  · rw [← h0, f32round_zero]
    norm_num
  · unfold f32round
    rw [if_neg h0.ne', if_neg (not_lt.mpr h0.le), abs_of_pos h0]
    show (1 : ℚ) * (rne (q * 2 ^ (23 - Int.log 2 q)) : ℚ) * 2 ^ (Int.log 2 q - 23) ≤ 63
    set e := Int.log 2 q with hedef
    have he5 : e ≤ 5 := by
      by_contra he6
      push_neg at he6
      have h6 : (6 : ℤ) ≤ e := by omega
      have hge : ((2 : ℕ) : ℚ) ^ (6 : ℤ) ≤ q :=
        (Int.zpow_le_iff_le_log (by norm_num) h0).mpr h6
      norm_num at hge
      linarith
    set k : ℕ := (23 - e).toNat with hkdef
    have hk : (23 : ℤ) - e = (k : ℤ) := by omega
    have hpowk : (2 : ℚ) ^ ((23 : ℤ) - e) = 2 ^ k := by
      rw [hk, zpow_natCast]
    have hxle : q * 2 ^ ((23 : ℤ) - e) ≤ 63 * 2 ^ k := by
      rw [hpowk]
      have hkpos : (0 : ℚ) < 2 ^ k := by positivity
      nlinarith
    have hmle := rne_le (q * 2 ^ ((23 : ℤ) - e))
    have hNcast : ((63 * 2 ^ k : ℤ) : ℚ) = 63 * 2 ^ k := by push_cast; ring
    have hmN : rne (q * 2 ^ ((23 : ℤ) - e)) ≤ 63 * 2 ^ k := by
      have hlt : (rne (q * 2 ^ ((23 : ℤ) - e)) : ℚ) < ((63 * 2 ^ k : ℤ) : ℚ) + 1 := by
        rw [hNcast]
        linarith
      have hlt2 : rne (q * 2 ^ ((23 : ℤ) - e)) < 63 * 2 ^ k + 1 := by
        exact_mod_cast hlt
      omega
    have hmqle : (rne (q * 2 ^ ((23 : ℤ) - e)) : ℚ) ≤ 63 * 2 ^ k := by
      calc (rne (q * 2 ^ ((23 : ℤ) - e)) : ℚ)
          ≤ ((63 * 2 ^ k : ℤ) : ℚ) := by exact_mod_cast hmN
        _ = 63 * 2 ^ k := hNcast
    have hp : (0 : ℚ) < 2 ^ (e - 23) := zpow_pos (by norm_num) _
    have hcancel : (2 : ℚ) ^ k * 2 ^ (e - 23) = 1 := by
      rw [← zpow_natCast (2 : ℚ) k, ← zpow_add₀ (by norm_num : (2 : ℚ) ≠ 0)]
      rw [show (k : ℤ) + (e - 23) = 0 by omega]
      norm_num
    calc (1 : ℚ) * (rne (q * 2 ^ ((23 : ℤ) - e)) : ℚ) * 2 ^ (e - 23)
        ≤ 1 * (63 * 2 ^ k) * 2 ^ (e - 23) := by nlinarith
      _ = 63 * (2 ^ k * 2 ^ (e - 23)) := by ring
      _ = 63 := by rw [hcancel]; norm_num

lemma f32round_63 : f32round 63 = 63 := by
  apply f32round_eval 63 63 5 16515072 (by norm_num) (by norm_num)
    (by norm_num) (by norm_num)
  · rw [show (63 : ℚ) * 2 ^ (23 - 5 : ℕ) = ((16515072 : ℤ) : ℚ) by norm_num]
    exact rne_intCast 16515072
  · norm_num

lemma f32round_half63 : f32round (63 / 2) = 63 / 2 := by
  apply f32round_eval (63 / 2) (63 / 2) 4 16515072 (by norm_num) (by norm_num)
    (by norm_num) (by norm_num)
  · rw [show (63 : ℚ) / 2 * 2 ^ (23 - 4 : ℕ) = ((16515072 : ℤ) : ℚ) by norm_num]
    exact rne_intCast 16515072
  · norm_num

lemma f32round_p603 : f32round (37989 / 1000) = 2489647 / 65536 := by
  apply f32round_eval _ _ 5 9958588 (by norm_num) (by norm_num) (by norm_num)
    (by norm_num)
  · apply rne_eval_lt _ 9958588
    · rw [Int.floor_eq_iff]
      constructor <;> norm_num
    · norm_num
  · norm_num

lemma f32round_p603f : f32round (637349643 / 16777216) = 2489647 / 65536 := by
  apply f32round_eval _ _ 5 9958588 (by norm_num) (by norm_num) (by norm_num)
    (by norm_num)
  · apply rne_eval_lt _ 9958588
    · rw [Int.floor_eq_iff]
      constructor <;> norm_num
    · norm_num
  · norm_num

lemma f32round_boundary : f32round (545259519 / 16777216) = 65 / 2 := by
  apply f32round_eval _ _ 5 8519680 (by norm_num) (by norm_num) (by norm_num)
    (by norm_num)
  · apply rne_eval_gt _ 8519679
    · rw [Int.floor_eq_iff]
      constructor <;> norm_num
    · norm_num
  · norm_num

lemma pipeline_num (x : F32) (q : ℚ) (hx : x = .num q) :
    F32.mul (F32.add (F32.div x (F32.sub SPEED_MAX_RANGE SPEED_MIN_RANGE))
      SPEED_MIN_RANGE) (.num 63) = .num (f32round (q * 63)) := by
  subst hx
  have hs : F32.sub SPEED_MAX_RANGE SPEED_MIN_RANGE = .num 1 := by
    simp [F32.sub, SPEED_MAX_RANGE, SPEED_MIN_RANGE]
  rw [hs]
  have hd : F32.div (.num q) (.num 1) = .num q := by
    simp [F32.div]
  rw [hd]
  have ha : F32.add (.num q) SPEED_MIN_RANGE = .num q := by
    simp [F32.add, SPEED_MIN_RANGE]
  rw [ha]
  simp [F32.mul]

lemma speed_to_byte_range_eq (q : ℚ) :
    speed_to_byte (.Range (.num q)) = speed_to_byte_spec_f32 q := by
  by_cases h1 : 1 < q
  · have hclamp : (1 : ℚ) ⊓ (0 ⊔ q) = 1 := by
      rw [min_eq_left]
      exact le_max_of_le_right h1.le
    have hgt : F32.gt (F32.num q) SPEED_MAX_RANGE = true := by
      simp [F32.gt, SPEED_MAX_RANGE, h1]
    simp only [speed_to_byte, speed_to_byte_spec_f32, hgt, if_pos, hclamp]
    rw [pipeline_num SPEED_MAX_RANGE 1 rfl]
    simp only [F32.round]
    exact toU8_intCast _ (roundAway_nonneg (f32round_nonneg (by norm_num)))
      (roundAway_le63 (f32round_nonneg (by norm_num))
        (f32round_le63 (by norm_num) (by norm_num)))
  · have hgt : F32.gt (F32.num q) SPEED_MAX_RANGE = false := by
      simp [F32.gt, SPEED_MAX_RANGE, h1]
    by_cases h2 : q < 0
    · have hclamp : (1 : ℚ) ⊓ (0 ⊔ q) = 0 := by
        rw [max_eq_left h2.le, min_eq_right (by norm_num)]
      have hlt : F32.lt (F32.num q) SPEED_MIN_RANGE = true := by
        simp [F32.lt, F32.gt, SPEED_MIN_RANGE, h2]
      simp only [speed_to_byte, speed_to_byte_spec_f32, hgt, hlt, if_pos, if_neg,
        Bool.false_eq_true, not_false_eq_true, hclamp]
      rw [pipeline_num SPEED_MIN_RANGE 0 rfl]
      simp only [F32.round]
      exact toU8_intCast _ (roundAway_nonneg (f32round_nonneg (by norm_num)))
        (roundAway_le63 (f32round_nonneg (by norm_num))
          (f32round_le63 (by norm_num) (by norm_num)))
    · have hq0 : 0 ≤ q := not_lt.mp h2
      have hq1 : q ≤ 1 := not_lt.mp h1
      have hclamp : (1 : ℚ) ⊓ (0 ⊔ q) = q := by
        rw [max_eq_right hq0, min_eq_right hq1]
      have hlt : F32.lt (F32.num q) SPEED_MIN_RANGE = false := by
        simp [F32.lt, F32.gt, SPEED_MIN_RANGE, h2]
      simp only [speed_to_byte, speed_to_byte_spec_f32, hgt, hlt, if_neg,
        Bool.false_eq_true, not_false_eq_true, hclamp]
      rw [pipeline_num (F32.num q) q rfl]
      simp only [F32.round]
      exact toU8_intCast _ (roundAway_nonneg (f32round_nonneg (by positivity)))
        (roundAway_le63 (f32round_nonneg (by positivity))
          (f32round_le63 (by positivity) (by linarith)))

lemma speed_to_byte_spec_f32_le (q : ℚ) : (speed_to_byte_spec_f32 q).val ≤ 0x3F := by
  have h0 : (0 : ℚ) ≤ 1 ⊓ (0 ⊔ q) := le_min (by norm_num) (le_max_left 0 q)
  have h1 : (1 : ℚ) ⊓ (0 ⊔ q) ≤ 1 := min_le_left 1 (0 ⊔ q)
  have hf0 : (0 : ℚ) ≤ f32round ((1 ⊓ (0 ⊔ q)) * 63) := f32round_nonneg (by positivity)
  have hf1 : f32round ((1 ⊓ (0 ⊔ q)) * 63) ≤ 63 :=
    f32round_le63 (by positivity) (by nlinarith)
  have hr0 := roundAway_nonneg hf0
  have hr1 := roundAway_le63 hf0 hf1
  simp only [speed_to_byte_spec_f32]
  omega

lemma speed_to_byte_spec_eval (q c : ℚ) (z : ℤ) (hc : min 1 (max 0 q) * 63 = c)
    (h0 : 0 ≤ c) (hz : ⌊c + 1 / 2⌋ = z) :
    speed_to_byte_spec q = ⟨z.toNat % 256, Nat.mod_lt _ (by norm_num)⟩ := by
  simp only [speed_to_byte_spec, hc, roundAway, if_pos h0, hz]

lemma speed_to_byte_spec_f32_eval (q c d : ℚ) (z : ℤ)
    (hc : min 1 (max 0 q) * 63 = c) (hd : f32round c = d) (h0 : 0 ≤ d)
    (hz : ⌊d + 1 / 2⌋ = z) :
    speed_to_byte_spec_f32 q = ⟨z.toNat % 256, Nat.mod_lt _ (by norm_num)⟩ := by
  simp only [speed_to_byte_spec_f32, hc, hd, roundAway, if_pos h0, hz]

lemma speed_inf : speed_to_byte (.Range .inf) = ⟨0x3F, by norm_num⟩ := by
  have hgt : F32.gt F32.inf SPEED_MAX_RANGE = true := rfl
  simp only [speed_to_byte, hgt, if_pos]
  rw [pipeline_num SPEED_MAX_RANGE 1 rfl]
  simp only [F32.round]
  rw [toU8_intCast _ (roundAway_nonneg (f32round_nonneg (by norm_num)))
    (roundAway_le63 (f32round_nonneg (by norm_num))
      (f32round_le63 (by norm_num) (by norm_num)))]
  apply Fin.ext
  have hfl : f32round (1 * 63) = 63 := by
    rw [one_mul]
    exact f32round_63
  have h63 : roundAway (f32round (1 * 63)) = 63 := by
    rw [hfl]
    unfold roundAway
    rw [if_pos (by norm_num)]
    rw [Int.floor_eq_iff]
    constructor <;> norm_num
  simp only [h63]
  decide

lemma speed_neginf : speed_to_byte (.Range .neginf) = 0 := by
  have hgt : F32.gt F32.neginf SPEED_MAX_RANGE = false := rfl
  have hlt : F32.lt F32.neginf SPEED_MIN_RANGE = true := rfl
  simp only [speed_to_byte, hgt, hlt, if_pos, if_neg, Bool.false_eq_true,
    not_false_eq_true]
  rw [pipeline_num SPEED_MIN_RANGE 0 rfl]
  simp only [F32.round]
  rw [toU8_intCast _ (roundAway_nonneg (f32round_nonneg (by norm_num)))
    (roundAway_le63 (f32round_nonneg (by norm_num))
      (f32round_le63 (by norm_num) (by norm_num)))]
  apply Fin.ext
  have hfl : f32round (0 * 63) = 0 := by
    rw [zero_mul]
    exact f32round_zero
  have h0 : roundAway (f32round (0 * 63)) = 0 := by
    rw [hfl]
    unfold roundAway
    rw [if_pos (by norm_num)]
    rw [Int.floor_eq_iff]
    constructor <;> norm_num
  simp only [h0]
  decide

/-- C7: `checksum(data)` is, for every byte sequence, the sum of the input
bytes (accumulated in u32, masked to the low 8 bits) modulo 256; the empty
input yields 0 and the golden input `[0x0A, 0x88, 0x90, 0x00, 0x40]` yields
0x62. -/
theorem C7_checksum_spec :
    (∀ data : List U8, (checksum data).val = (data.map Fin.val).sum % 256)
    ∧ checksum [] = 0
    ∧ checksum [0x0A, 0x88, 0x90, 0x00, 0x40] = 0x62 :=
  ⟨checksum_val, by decide, by decide⟩

/-- C8: `Message::new(address, cmd1, cmd2, data1, data2)` always assembles
the frame `[0xFF, address, cmd1, cmd2, data1, data2, c]` with `c` the
checksum of bytes 1 through 5, and the golden example
`new(10, SENSE|CAMERA_ON_OFF, FOCUS_FAR|DOWN, 0x00, 0x40)` yields exactly
`[0xFF, 0x0A, 0x88, 0x90, 0x00, 0x40, 0x62]`. -/
theorem C8_message_new :
    (∀ (address : U8) (cmd1 : Command1) (cmd2 : Command2) (data1 data2 : U8),
        Message.new address cmd1 cmd2 data1 data2 =
          ⟨0xFF, address, cmd1.bits, cmd2.bits, data1, data2,
            checksum [address, cmd1.bits, cmd2.bits, data1, data2]⟩)
    ∧ Message.new 10 (Command1.SENSE ||| Command1.CAMERA_ON_OFF)
        (Command2.FOCUS_FAR ||| Command2.DOWN) 0x00 0x40 =
        ⟨0xFF, 0x0A, 0x88, 0x90, 0x00, 0x40, 0x62⟩ := by
  constructor
  · intro address cmd1 cmd2 data1 data2
    show Message.fill_checksum _ = _
    simp only [Message.fill_checksum]
    exact congrArg _ (checksum_append_zero [address, cmd1.bits, cmd2.bits, data1, data2])
  · decide

/-- C2: converting any 7-byte array into a `Message` through
`From<[u8; 7]>` and reading the bytes back through `as_ref` returns exactly
the original array, including the sync and checksum positions. -/
theorem C2_frame_roundtrip (array : Fin 7 → U8) :
    (Message.from_arr array).as_ref = List.ofFn array := by
  simp [Message.from_arr, Message.as_ref, List.ofFn_succ]
  refine ⟨?_, ?_, ?_, ?_⟩ <;> congr 1

/-- C1 counterexample: the `From<[u8; 7]>` conversion (the crate's own doc
example bytes `[11, 22, 33, 44, 55, 66, 77]`) produces a public-API `Message`
whose last byte, 77, differs from the checksum of its other bytes
((22+33+44+55+66) mod 256 = 220), refuting the claim for the listed surface
`From<[u8;7]>`. -/
theorem C1_counterexample :
    ¬ cksumOk (Message.from_arr ![11, 22, 33, 44, 55, 66, 77]) := by
  decide

/-- C1 (amended): every `Message` produced by `Message::new`,
`Message::from_bytes`, `MessageBuilder::finalize`, or any successful
extended-command constructor satisfies the checksum invariant (7th byte =
sum of bytes 1..6 exclusive of the checksum position, i.e. bytes at offsets
1 through 5, modulo 256); `From<[u8; 7]>` and `TryFrom<&[u8]>` are excluded,
as they copy the caller's bytes verbatim. -/
theorem C1_checksum_invariant :
    (∀ (a : U8) (c1 : Command1) (c2 : Command2) (d1 d2 : U8),
        cksumOk (Message.new a c1 c2 d1 d2))
    ∧ (∀ (a : U8) (w : Fin 4 → U8), cksumOk (Message.from_bytes a w))
    ∧ (∀ b : MessageBuilder, exceptOk cksumOk b.finalize)
    ∧ (∀ a p, exceptOk cksumOk (Message.set_preset a p))
    ∧ (∀ a p, exceptOk cksumOk (Message.clear_preset a p))
    ∧ (∀ a p, exceptOk cksumOk (Message.go_to_preset a p))
    ∧ (∀ a, exceptOk cksumOk (Message.flip_180 a))
    ∧ (∀ a, exceptOk cksumOk (Message.go_to_zero_pan a))
    ∧ (∀ a s i, exceptOk cksumOk (Message.set_auxiliary a s i))
    ∧ (∀ a s i, exceptOk cksumOk (Message.clear_auxiliary a s i))
    ∧ (∀ a, exceptOk cksumOk (Message.remote_reset a))
    ∧ (∀ a z, exceptOk cksumOk (Message.set_zone_start a z))
    ∧ (∀ a z, exceptOk cksumOk (Message.set_zone_end a z))
    ∧ (∀ a col ch, exceptOk cksumOk (Message.write_char_to_screen a col ch))
    ∧ (∀ a, exceptOk cksumOk (Message.clear_screen a))
    ∧ (∀ a n, exceptOk cksumOk (Message.alarm_acknowledge a n))
    ∧ (∀ a, exceptOk cksumOk (Message.zone_scan_on a))
    ∧ (∀ a, exceptOk cksumOk (Message.zone_scan_off a))
    ∧ (∀ a p, exceptOk cksumOk (Message.set_pattern_start a p))
    ∧ (∀ a p, exceptOk cksumOk (Message.set_pattern_stop a p))
    ∧ (∀ a p, exceptOk cksumOk (Message.run_pattern a p))
    ∧ (∀ a s, exceptOk cksumOk (Message.set_zoom_speed a s))
    ∧ (∀ a s, exceptOk cksumOk (Message.set_focus_speed a s))
    ∧ (∀ a, exceptOk cksumOk (Message.reset_camera_to_defaults a))
    ∧ (∀ a c, exceptOk cksumOk (Message.auto_focus a c))
    ∧ (∀ a c, exceptOk cksumOk (Message.auto_iris a c))
    ∧ (∀ a c, exceptOk cksumOk (Message.agc a c))
    ∧ (∀ a c, exceptOk cksumOk (Message.backlight_compensation a c))
    ∧ (∀ a c, exceptOk cksumOk (Message.auto_white_balance a c))
    ∧ (∀ a, exceptOk cksumOk (Message.enable_device_phase_delay_mode a))
    ∧ (∀ a c, exceptOk cksumOk (Message.set_shutter_speed a c))
    ∧ (∀ a c, exceptOk cksumOk (Message.adjust_line_lock_phase_delay a c))
    ∧ (∀ a c, exceptOk cksumOk (Message.adjust_white_balance_rb a c))
    ∧ (∀ a c, exceptOk cksumOk (Message.adjust_white_balance_mg a c))
    ∧ (∀ a c, exceptOk cksumOk (Message.adjust_gain a c))
    ∧ (∀ a c, exceptOk cksumOk (Message.adjust_auto_iris_level a c))
    ∧ (∀ a c, exceptOk cksumOk (Message.adjust_auto_iris_peak a c))
    ∧ exceptOk cksumOk Message.query := by
  refine ⟨new_cksumOk, from_bytes_cksumOk, ?_, ?_, ?_, ?_, ?_, ?_, ?_, ?_, ?_,
    ?_, ?_, ?_, ?_, ?_, ?_, ?_, ?_, ?_, ?_, ?_, ?_, ?_, ?_, ?_, ?_, ?_, ?_,
    ?_, ?_, ?_, ?_, ?_, ?_, ?_, ?_, ?_⟩
  · intro b
    exact new_cksumOk b.address b.cmd1 b.cmd2 b.data1 b.data2
  · intro a p
    by_cases hp : p = (0 : U8) <;>
      simp [Message.set_preset, validate_preset_id, hp, exceptOk, from_bytes_cksumOk]
  · intro a p
    by_cases hp : p = (0 : U8) <;>
      simp [Message.clear_preset, validate_preset_id, hp, exceptOk, from_bytes_cksumOk]
  · intro a p
    by_cases hp : p = (0 : U8) <;>
      simp [Message.go_to_preset, validate_preset_id, hp, exceptOk, from_bytes_cksumOk]
  · exact fun a => from_bytes_cksumOk a _
  · exact fun a => from_bytes_cksumOk a _
  · exact fun a s i => from_bytes_cksumOk a _
  · exact fun a s i => from_bytes_cksumOk a _
  · exact fun a => from_bytes_cksumOk a _
  · exact fun a z => from_bytes_cksumOk a _
  · exact fun a z => from_bytes_cksumOk a _
  · intro a col ch
    by_cases hc : ch.toNat < 128 <;>
      simp [Message.write_char_to_screen, hc, exceptOk, from_bytes_cksumOk]
  · exact fun a => from_bytes_cksumOk a _
  · exact fun a n => from_bytes_cksumOk a _
  · exact fun a => from_bytes_cksumOk a _
  · exact fun a => from_bytes_cksumOk a _
  · exact fun a p => from_bytes_cksumOk a _
  · exact fun a p => from_bytes_cksumOk a _
  · exact fun a p => from_bytes_cksumOk a _
  · exact fun a s => from_bytes_cksumOk a _
  · exact fun a s => from_bytes_cksumOk a _
  · exact fun a => from_bytes_cksumOk a _
  · exact fun a c => from_bytes_cksumOk a _
  · exact fun a c => from_bytes_cksumOk a _
  · exact fun a c => from_bytes_cksumOk a _
  · exact fun a c => from_bytes_cksumOk a _
  · exact fun a c => from_bytes_cksumOk a _
  · exact fun a => from_bytes_cksumOk a _
  · exact fun a c => from_bytes_cksumOk a _
  · exact fun a c => from_bytes_cksumOk a _
  · exact fun a c => from_bytes_cksumOk a _
  · exact fun a c => from_bytes_cksumOk a _
  · exact fun a c => from_bytes_cksumOk a _
  · exact fun a c => from_bytes_cksumOk a _
  · exact fun a c => from_bytes_cksumOk a _
  · exact from_bytes_cksumOk 0 _

/-- C9: for every address, `set_preset`, `clear_preset` and `go_to_preset`
reject preset id 0 with an invalid-value error (and produce nothing), and
succeed for every nonzero preset id with the corresponding complete
message. -/
theorem C9_preset_validation :
    (∀ address : U8,
        Message.set_preset address 0 = .error (arg_error "Invalid Present ID")
        ∧ Message.clear_preset address 0 = .error (arg_error "Invalid Present ID")
        ∧ Message.go_to_preset address 0 = .error (arg_error "Invalid Present ID"))
    ∧ (∀ (address pid : U8), pid ≠ 0 →
        Message.set_preset address pid =
          .ok (Message.from_bytes address ![0x00, 0x03, 0x00, pid])
        ∧ Message.clear_preset address pid =
          .ok (Message.from_bytes address ![0x00, 0x05, 0x00, pid])
        ∧ Message.go_to_preset address pid =
          .ok (Message.from_bytes address ![0x00, 0x07, 0x00, pid])) := by
  constructor
  · intro address
    refine ⟨?_, ?_, ?_⟩ <;>
      simp [Message.set_preset, Message.clear_preset, Message.go_to_preset,
        validate_preset_id]
  · intro address pid hp
    refine ⟨?_, ?_, ?_⟩ <;>
      simp [Message.set_preset, Message.clear_preset, Message.go_to_preset,
        validate_preset_id, hp]

/-- C9 witness: concrete instantiation at address 7, preset id 5. -/
theorem C9_preset_validation_witness :
    Message.set_preset 7 5 = .ok (Message.from_bytes 7 ![0x00, 0x03, 0x00, 5])
    ∧ Message.clear_preset 7 5 = .ok (Message.from_bytes 7 ![0x00, 0x05, 0x00, 5])
    ∧ Message.go_to_preset 7 5 = .ok (Message.from_bytes 7 ![0x00, 0x07, 0x00, 5]) :=
  C9_preset_validation.2 7 5 (by decide)

/-- C5: `finalize` never fails and returns exactly the message built by
`Message::new` from the builder's current state; in particular the chain
`MessageBuilder::new(10).camera_on().focus_far().down().tilt(Range(0.5))
.finalize()` produces `Message::new(10, SENSE|CAMERA_ON_OFF, FOCUS_FAR|DOWN,
0x00, 0x20)`. -/
theorem C5_builder_equivalence :
    (∀ b : MessageBuilder,
        b.finalize = .ok (Message.new b.address b.cmd1 b.cmd2 b.data1 b.data2))
    ∧ ((((MessageBuilder.new 10).camera_on).focus_far).down.tilt
          (Speed.Range (F32.num (1 / 2)))).finalize
        = .ok (Message.new 10 (Command1.SENSE ||| Command1.CAMERA_ON_OFF)
            (Command2.FOCUS_FAR ||| Command2.DOWN) 0x00 0x20) := by
  constructor
  · intro b
    rfl
  · have hb : (((MessageBuilder.new 10).camera_on).focus_far).down =
        ⟨10, Command1.SENSE ||| Command1.CAMERA_ON_OFF,
          Command2.FOCUS_FAR ||| Command2.DOWN, 0, 0⟩ := by decide
    have hs : speed_to_byte (Speed.Range (F32.num (1 / 2))) = 0x20 := by
      rw [speed_to_byte_range_eq,
        speed_to_byte_spec_f32_eval (1 / 2) (63 / 2) (63 / 2) 32 (by norm_num)
          f32round_half63 (by norm_num)
          (by
            rw [show (63 : ℚ) / 2 + 1 / 2 = 32 by norm_num]
            rw [Int.floor_eq_iff]
            constructor <;> norm_num)]
      decide
    rw [hb]
    simp only [MessageBuilder.tilt, MessageBuilder.finalize]
    rw [hs]

/-- C6 counterexample: at the exactly-representable f32 fraction
8654913/2^24 the exact product with 63 is 32.5 - 2^-24, which f32
multiplication rounds to 32.5; `f32::round` then rounds half away from zero
to 33, so the program returns 0x21 while the claim's idealized
`round(fraction * 63)` gives 32 = 0x20.  This refutes the claim's universal
"clamp then round(fraction * 63)" description of `speed_to_byte`. -/
theorem C6_counterexample :
    speed_to_byte (.Range (.num (8654913 / 16777216))) = 0x21
    ∧ speed_to_byte_spec (8654913 / 16777216) = 0x20
    ∧ speed_to_byte (.Range (.num (8654913 / 16777216))) ≠
        speed_to_byte_spec (8654913 / 16777216) := by
  have h1 : speed_to_byte (.Range (.num (8654913 / 16777216))) = 0x21 := by
    rw [speed_to_byte_range_eq,
      speed_to_byte_spec_f32_eval (8654913 / 16777216) (545259519 / 16777216)
        (65 / 2) 33 (by norm_num) f32round_boundary (by norm_num)
        (by
          rw [show (65 : ℚ) / 2 + 1 / 2 = 33 by norm_num]
          rw [Int.floor_eq_iff]
          constructor <;> norm_num)]
    decide
  have h2 : speed_to_byte_spec (8654913 / 16777216) = 0x20 := by
    rw [speed_to_byte_spec_eval (8654913 / 16777216) (545259519 / 16777216) 32
      (by norm_num) (by norm_num)
      (by
        rw [Int.floor_eq_iff]
        constructor <;> norm_num)]
    decide
  refine ⟨h1, h2, ?_⟩
  rw [h1, h2]
  decide

/-- C6 (amended): the speed quantizer clamps the fraction to [0, 1],
multiplies by 63 in f32 (the exact product is rounded to the nearest
representable value), then rounds half away from zero — i.e. it computes
`round(fl32(fraction * 63))`, not `round(fraction * 63)`; the two agree
except where the exact product falls within an f32 half-ulp of a .5
boundary.  All the claim's golden values are unaffected: Range(0.0) gives 0,
Range(1.0) gives 0x3F, Range(0.603) gives 0x26 (both for the decimal 0.603
and for the exact f32 value of the literal, 10116661/2^24), Turbo gives
0xFF, and out-of-range fractions (2, -3, the infinities) clamp to the
nearest bound. -/
theorem C6_speed_quantization :
    (∀ q : ℚ, speed_to_byte (.Range (.num q)) = speed_to_byte_spec_f32 q)
    ∧ speed_to_byte (.Range (.num 0)) = 0x00
    ∧ speed_to_byte (.Range (.num 1)) = 0x3F
    ∧ speed_to_byte (.Range (.num (603 / 1000))) = 0x26
    ∧ speed_to_byte (.Range (.num (10116661 / 16777216))) = 0x26
    ∧ speed_to_byte .Turbo = 0xFF
    ∧ speed_to_byte (.Range (.num 2)) = 0x3F
    ∧ speed_to_byte (.Range (.num (-3))) = 0x00
    ∧ speed_to_byte (.Range .inf) = 0x3F
    ∧ speed_to_byte (.Range .neginf) = 0x00 := by
  refine ⟨speed_to_byte_range_eq, ?_, ?_, ?_, ?_, rfl, ?_, ?_, ?_, speed_neginf⟩
  · rw [speed_to_byte_range_eq,
      speed_to_byte_spec_f32_eval 0 0 0 0 (by norm_num) f32round_zero
        (by norm_num)
        (by
          rw [show (0 : ℚ) + 1 / 2 = 1 / 2 by norm_num]
          rw [Int.floor_eq_iff]
          constructor <;> norm_num)]
    decide
  · rw [speed_to_byte_range_eq,
      speed_to_byte_spec_f32_eval 1 63 63 63 (by norm_num) f32round_63
        (by norm_num)
        (by
          rw [Int.floor_eq_iff]
          constructor <;> norm_num)]
    decide
  · rw [speed_to_byte_range_eq,
      speed_to_byte_spec_f32_eval (603 / 1000) (37989 / 1000) (2489647 / 65536)
        38 (by norm_num) f32round_p603 (by norm_num)
        (by
          rw [show (2489647 : ℚ) / 65536 + 1 / 2 = 2522415 / 65536 by norm_num]
          rw [Int.floor_eq_iff]
          constructor <;> norm_num)]
    decide
  · rw [speed_to_byte_range_eq,
      speed_to_byte_spec_f32_eval (10116661 / 16777216) (637349643 / 16777216)
        (2489647 / 65536) 38 (by norm_num) f32round_p603f (by norm_num)
        (by
          rw [show (2489647 : ℚ) / 65536 + 1 / 2 = 2522415 / 65536 by norm_num]
          rw [Int.floor_eq_iff]
          constructor <;> norm_num)]
    decide
  · rw [speed_to_byte_range_eq,
      speed_to_byte_spec_f32_eval 2 63 63 63 (by norm_num) f32round_63
        (by norm_num)
        (by
          rw [Int.floor_eq_iff]
          constructor <;> norm_num)]
    decide
  · rw [speed_to_byte_range_eq,
      speed_to_byte_spec_f32_eval (-3) 0 0 0 (by norm_num) f32round_zero
        (by norm_num)
        (by
          rw [show (0 : ℚ) + 1 / 2 = 1 / 2 by norm_num]
          rw [Int.floor_eq_iff]
          constructor <;> norm_num)]
    decide
  · rw [speed_inf]
    decide

/-- C10: for every `Speed::Range` argument, including NaN, the infinities and
out-of-range fractions, `speed_to_byte` returns at most 0x3F; hence a Range
speed byte never equals the Turbo sentinel 0xFF, and the data bytes written
by `pan` and `tilt` with a Range speed are bounded by 0x3F as well. -/
theorem C10_range_byte_bounded :
    (∀ x : F32, (speed_to_byte (.Range x)).val ≤ 0x3F)
    ∧ (∀ x : F32, speed_to_byte (.Range x) ≠ SPEED_TURBO_BYTE)
    ∧ (∀ (b : MessageBuilder) (x : F32),
        ((b.pan (.Range x)).data1).val ≤ 0x3F
        ∧ ((b.tilt (.Range x)).data2).val ≤ 0x3F) := by
  have key : ∀ x : F32, (speed_to_byte (.Range x)).val ≤ 0x3F := by
    intro x
    cases x with
    | nan => decide
    | inf => rw [speed_inf]
    | neginf => rw [speed_neginf]; decide
    | num q =>
        rw [speed_to_byte_range_eq]
        exact speed_to_byte_spec_f32_le q
  refine ⟨key, fun x h => absurd (h ▸ key x) (by decide), fun b x => ⟨key x, key x⟩⟩

/-- C3: `checksum_is_valid` is, for every response and originating-command
checksum byte, exactly the spec's kind-dependent condition (trivially true
for None; checksum of `[cmd_cksm, 3rd byte]` against the 4th byte for
General; the standard frame checksum over bytes 1..5 against byte 6 for
Extended, without `cmd_cksm`; checksum of bytes 1..16 plus `cmd_cksm`
reduced mod 256 against byte 17 for Query), and the golden Query response
validates as true against originating checksum 0x46. -/
theorem C3_checksum_is_valid :
    (∀ (r : Response) (c : U8),
        r.checksum_is_valid c = true ↔ checksum_valid_spec r c)
    ∧ (Response.try_from
        [0xFF, 0x01, 0x44, 0x44, 0x35, 0x33, 0x43, 0x42, 0x57,
          0, 0, 0, 0, 0, 0, 0, 0, 0x13]).map
        (fun r => r.checksum_is_valid 0x46) = .ok true
    ∧ (Response.try_from
        [0xFF, 0x01, 0x44, 0x44, 0x35, 0x33, 0x43, 0x42, 0x57,
          0, 0, 0, 0, 0, 0, 0, 0, 0x13]).map Response.kind = .ok .query := by
  refine ⟨?_, by decide, by decide⟩
  intro r c
  have hmask : ∀ n : ℕ, n &&& 0xFF = n % 256 := by
    intro n
    rw [show (0xFF : ℕ) = 2 ^ 8 - 1 by norm_num, Nat.and_pow_two_sub_one_eq_mod]
  obtain ⟨k, data⟩ := r
  cases k <;>
    simp [Response.checksum_is_valid, checksum_valid_spec, hmask, beq_iff_eq]

/-- C4: constructing a `Response` from raw bytes succeeds exactly for input
lengths 0, 4, 7 and 18, classifying them as None, General, Extended and
Query respectively; any other length yields an invalid-value error carrying
the observed length; and on success `bytes()` has exactly the length implied
by the kind. -/
theorem C4_response_classification (v : List U8) :
    ((∃ r, Response.try_from v = .ok r) ↔
      v.length = 0 ∨ v.length = 4 ∨ v.length = 7 ∨ v.length = 18)
    ∧ (v.length = 0 → ∃ r, Response.try_from v = .ok r ∧ r.kind = .none)
    ∧ (v.length = 4 → ∃ r, Response.try_from v = .ok r ∧ r.kind = .general)
    ∧ (v.length = 7 → ∃ r, Response.try_from v = .ok r ∧ r.kind = .extended)
    ∧ (v.length = 18 → ∃ r, Response.try_from v = .ok r ∧ r.kind = .query)
    ∧ (¬(v.length = 0 ∨ v.length = 4 ∨ v.length = 7 ∨ v.length = 18) →
        Response.try_from v =
          .error (arg_error ("Invalid response length " ++ toString v.length)))
    ∧ (∀ r, Response.try_from v = .ok r → r.bytes.length = r.kind.size) := by
  by_cases h0 : v.length = 0
  · have e : Response.try_from v = .ok ⟨.none, List.replicate RESPONSE_SIZE_MAX 0⟩ := by
      simp [Response.try_from, RESPONSE_SIZE_NONE, h0]
    refine ⟨⟨fun _ => Or.inl h0, fun _ => ⟨_, e⟩⟩, fun _ => ⟨_, e, rfl⟩,
      fun h => by omega, fun h => by omega, fun h => by omega,
      fun hn => absurd (Or.inl h0) hn, fun r hr => ?_⟩
    rw [e] at hr
    injection hr with hr
    subst hr
    simp [Response.bytes, ResponseKind.size, RESPONSE_SIZE_NONE]
  · by_cases h4 : v.length = 4
    · have e : Response.try_from v =
          .ok ⟨.general, v ++ List.replicate (RESPONSE_SIZE_MAX - RESPONSE_SIZE_GENERAL) 0⟩ := by
        simp [Response.try_from, RESPONSE_SIZE_NONE, RESPONSE_SIZE_GENERAL, h0, h4]
      refine ⟨⟨fun _ => Or.inr (Or.inl h4), fun _ => ⟨_, e⟩⟩,
        fun h => by omega, fun _ => ⟨_, e, rfl⟩, fun h => by omega,
        fun h => by omega, fun hn => absurd (Or.inr (Or.inl h4)) hn, fun r hr => ?_⟩
      rw [e] at hr
      injection hr with hr
      subst hr
      simp [Response.bytes, ResponseKind.size, RESPONSE_SIZE_GENERAL,
        RESPONSE_SIZE_MAX, RESPONSE_SIZE_QUERY, List.length_take, h4]
    · by_cases h7 : v.length = 7
      · have e : Response.try_from v =
            .ok ⟨.extended, v ++ List.replicate (RESPONSE_SIZE_MAX - RESPONSE_SIZE_EXTENDED) 0⟩ := by
          simp [Response.try_from, RESPONSE_SIZE_NONE, RESPONSE_SIZE_GENERAL,
            RESPONSE_SIZE_EXTENDED, h0, h4, h7]
        refine ⟨⟨fun _ => Or.inr (Or.inr (Or.inl h7)), fun _ => ⟨_, e⟩⟩,
          fun h => by omega, fun h => by omega, fun _ => ⟨_, e, rfl⟩,
          fun h => by omega, fun hn => absurd (Or.inr (Or.inr (Or.inl h7))) hn,
          fun r hr => ?_⟩
        rw [e] at hr
        injection hr with hr
        subst hr
        simp [Response.bytes, ResponseKind.size, RESPONSE_SIZE_EXTENDED,
          RESPONSE_SIZE_MAX, RESPONSE_SIZE_QUERY, List.length_take, h7]
      · by_cases h18 : v.length = 18
        · have e : Response.try_from v =
              .ok ⟨.query, v ++ List.replicate (RESPONSE_SIZE_MAX - RESPONSE_SIZE_QUERY) 0⟩ := by
            simp [Response.try_from, RESPONSE_SIZE_NONE, RESPONSE_SIZE_GENERAL,
              RESPONSE_SIZE_EXTENDED, RESPONSE_SIZE_QUERY, h0, h4, h7, h18]
          refine ⟨⟨fun _ => Or.inr (Or.inr (Or.inr h18)), fun _ => ⟨_, e⟩⟩,
            fun h => by omega, fun h => by omega, fun h => by omega,
            fun _ => ⟨_, e, rfl⟩,
            fun hn => absurd (Or.inr (Or.inr (Or.inr h18))) hn, fun r hr => ?_⟩
          rw [e] at hr
          injection hr with hr
          subst hr
          simp [Response.bytes, ResponseKind.size, RESPONSE_SIZE_QUERY,
            RESPONSE_SIZE_MAX, List.length_take, h18]
        · have e : Response.try_from v =
              .error (arg_error ("Invalid response length " ++ toString v.length)) := by
            simp [Response.try_from, RESPONSE_SIZE_NONE, RESPONSE_SIZE_GENERAL,
              RESPONSE_SIZE_EXTENDED, RESPONSE_SIZE_QUERY, h0, h4, h7, h18]
          refine ⟨⟨fun ⟨r, hr⟩ => ?_, fun hor => absurd hor (by simp [h0, h4, h7, h18])⟩,
            fun h => absurd h h0, fun h => absurd h h4, fun h => absurd h h7,
            fun h => absurd h h18, fun _ => e, fun r hr => ?_⟩
          · rw [e] at hr
            cases hr
          · rw [e] at hr
            cases hr

/-- C4 witness: a length-5 input fails with the invalid-value error carrying
length 5; a length-4 input classifies as General; a length-7 input succeeds
with `bytes()` of the kind-implied length. -/
theorem C4_response_classification_witness :
    Response.try_from (List.replicate 5 0) =
      .error (arg_error ("Invalid response length " ++
        toString (List.replicate 5 (0 : U8)).length))
    ∧ (∃ r, Response.try_from (List.replicate 4 0) = .ok r ∧ r.kind = .general)
    ∧ (∃ r, Response.try_from (List.replicate 7 0) = .ok r
        ∧ r.bytes.length = r.kind.size) := by
  refine ⟨(C4_response_classification (List.replicate 5 0)).2.2.2.2.2.1 (by decide),
    (C4_response_classification (List.replicate 4 0)).2.2.1 (by decide), ?_⟩
  obtain ⟨r, hr, _⟩ :=
    (C4_response_classification (List.replicate 7 0)).2.2.2.1 (by decide)
  exact ⟨r, hr, (C4_response_classification (List.replicate 7 0)).2.2.2.2.2.2 r hr⟩

end Pelcodrs
